import Mathlib

/-!
Formal model of the attendance-normalization utilities in
`hr_reports/utils/clean_format/`.

Conventions of the shallow embedding:
* Python floats are modelled as exact rationals (`ℚ`); `round(x, 2)` is
  modelled as decimal rounding with round-half-to-even (Python's rule),
  and `round(x)` as `rne` below.
* Python `datetime` timestamps that all lie on one calendar day are
  modelled as seconds (`ℤ`); `timedelta(days=1)` is `86400`; the `.hour`
  attribute is `hourOf`.
* A Python value that may be `None` / NaN / the empty string (a missing
  punch, a missing custom date) is modelled as an `Option`.
* A function that returns either a number or the empty string `""` is
  modelled as returning an `Option` of the number (`none` = blank).
* String parsing (`strptime`) is not modelled: functions receive the
  already-parsed value; string formatting is modelled only where a claim
  is about the produced text (the date-range error messages and the
  `HH:MM` working-hours field).
-/

namespace VaamanAttendance

/-- Round-half-to-even on rationals: the integer Python's `round(x)` returns
(ties go to the even neighbour). -/
def rne (q : ℚ) : ℤ :=
  if q - (Int.floor q : ℚ) < 1/2 then Int.floor q
  else if 1/2 < q - (Int.floor q : ℚ) then Int.floor q + 1
  else if Int.floor q % 2 = 0 then Int.floor q else Int.floor q + 1

/-- Python's `round(x, 2)` on our rational model of floats. -/
def pyRound2 (q : ℚ) : ℚ := (rne (q * 100) : ℚ) / 100

/-- Hour attribute of a timestamp given in seconds: `(t % 86400) / 3600`
(the Python `datetime.hour` of a same-day timestamp). -/
def hourOf (t : ℤ) : ℤ := (t % 86400) / 3600

/-- Zero-padded two-digit decimal rendering of a natural number, as the
Python format `{:02d}` produces for values below 100. -/
def pad2 (n : ℕ) : String := if n < 10 then "0" ++ toString n else toString n

/-- Check that `sub` occurs at the head of `s`. -/
def leadMatch : List Char → List Char → Bool
  | [], _ => true
  | _ :: _, [] => false
  | a :: as, b :: bs => a == b && leadMatch as bs

/-- Check that `sub` occurs somewhere inside `s`. -/
def subSearch (sub : List Char) : List Char → Bool
  | [] => leadMatch sub []
  | c :: t => leadMatch sub (c :: t) || subSearch sub t

/-- Substring test on strings (used to state that an error message names
a particular date). -/
def strContains (s sub : String) : Bool := subSearch sub.data s.data

/-- The four shift windows with their centre hours, in the insertion order
of the `distances` dict of `clean_daily_inout30.detect_shift`:
A centre 6, G centre 9, B centre 14, C centre 22. -/
def shiftCenters : List (String × ℤ) := [("A", 6), ("G", 9), ("B", 14), ("C", 22)]

/-- Circular (24-hour wrap-around) distance between two hour values. -/
def circDist (h c : ℤ) : ℤ := min ((h - c) % 24) ((c - h) % 24)

/-- The in-window classification shared by the shift detectors: A for
hours 5-7, G for 8-10, B for 13-15, C for 21-23, blank otherwise. -/
def window_code (hour : ℤ) : String :=
  if 5 ≤ hour ∧ hour ≤ 7 then "A"
  else if 8 ≤ hour ∧ hour ≤ 10 then "G"
  else if 13 ≤ hour ∧ hour ≤ 15 then "B"
  else if 21 ≤ hour ∧ hour ≤ 23 then "C"
  else ""

/-!
## Model of `clean_crystal_excel.py`
-/

namespace CrystalExcel

/-- Model of the spreadsheet-serial branch of `format_timestamp`
(`clean_crystal_excel.py` lines 131-134, for numeric `time_val ≤ 1`):
`total_seconds = int(time_val * 24 * 3600)`, then
`hours = (total_seconds // 3600) % 24` and
`minutes = (total_seconds % 3600) // 60`. -/
def format_timestamp_serial (serial : ℚ) : ℤ × ℤ :=
  ((Int.floor (serial * 24 * 3600) / 3600) % 24,
    (Int.floor (serial * 24 * 3600) % 3600) / 60)

/-- Model of the `HH.MM` branch of `format_timestamp`
(`clean_crystal_excel.py` lines 128-130, for numeric `time_val > 1`):
`hours = int(time_val)`, `minutes = int(round((time_val - hours) * 100))`. -/
def format_timestamp_hhmm (v : ℚ) : ℤ × ℤ :=
  (Int.floor v, rne ((v - (Int.floor v : ℚ)) * 100))

/-- Model of `calculate_working_hours` (`clean_crystal_excel.py` lines
162-185): `0.0` when a punch is missing; adds one day to `out` when
`out < in` strictly; result is `round(hours, 2)`. -/
def calculate_working_hours (in_time out_time : Option ℤ) : ℚ :=
  match in_time, out_time with
  | some i, some o =>
      pyRound2 ((((if o < i then o + 86400 else o) - i : ℤ) : ℚ) / 3600)
  | _, _ => 0

/-- Model of `format_working_hours` (`clean_crystal_excel.py` lines
188-195): `"00:00"` for non-positive hours, otherwise truncated `HH:MM`. -/
def format_working_hours (hours : ℚ) : String :=
  if hours ≤ 0 then "00:00"
  else
    pad2 (Int.floor hours).toNat ++ ":" ++
      pad2 (Int.floor ((hours - (Int.floor hours : ℚ)) * 60)).toNat

/-- Model of `calculate_overtime` (`clean_crystal_excel.py` lines 198-213):
blank (`none`) when `work_hours` is falsy or `≤ 0`, otherwise
`round(work_hours - 9, 2)`, blanked when that is `≤ 0`. -/
def calculate_overtime (work_hours : ℚ) : Option ℚ :=
  if work_hours ≤ 0 then none
  else
    if pyRound2 (work_hours - 9) ≤ 0 then none else some (pyRound2 (work_hours - 9))

/-- The `status_map` dict of `clean_crystal_excel` (lines 267-284). -/
def status_map : List (String × String) :=
  [("H", "Holiday"), ("HO", "Holiday"), ("WO", "Holiday"),
   ("A", "Absent"), ("P", "Present"),
   ("½P", "Half Day"), ("0.5P", "Half Day"), (".5P", "Half Day"),
   ("HD", "Half Day"), ("HALF", "Half Day"), ("H½P", "Half Day"),
   ("½BH", "Half Day"), ("T", "Terminated"),
   ("ML", "On Leave"), ("CO", "On Leave"), ("HP", "Half Day")]

/-- The `excluded_statuses` list of `clean_crystal_excel` (line 287). -/
def excluded_statuses : List String := ["Holiday", "Terminated"]

/-- One output row of `clean_crystal_excel` (the fields a claim is about). -/
structure DayRecord where
  attendanceDate : String
  status : String
  workingHours : String
  overtime : Option ℚ
  deriving DecidableEq, Repr

/-- Model of the per-day body of the main loop of `clean_crystal_excel`
(lines 348-388): skip blank status cells, map the raw token through
`status_map` with the token itself as fallback, skip excluded statuses,
otherwise emit the record with derived working hours and overtime. -/
def process_day (date_str : String) (raw_status : Option String)
    (check_in check_out : Option ℤ) : Option DayRecord :=
  match raw_status with
  | none => none
  | some raw =>
      if ((status_map.lookup raw).getD raw) ∈ excluded_statuses then none
      else
        some { attendanceDate := date_str,
               status := (status_map.lookup raw).getD raw,
               workingHours :=
                 format_working_hours (calculate_working_hours check_in check_out),
               overtime :=
                 calculate_overtime (calculate_working_hours check_in check_out) }

end CrystalExcel

/-!
## Model of `clean_daily_inout30.py`
-/

namespace DailyInout30

/-- Model of `calculate_working_hours` (`clean_daily_inout30.py` lines
90-127): identical logic to the crystal variant. -/
def calculate_working_hours (in_time out_time : Option ℤ) : ℚ :=
  match in_time, out_time with
  | some i, some o =>
      pyRound2 ((((if o < i then o + 86400 else o) - i : ℤ) : ℚ) / 3600)
  | _, _ => 0

/-- Model of `format_working_hours` (`clean_daily_inout30.py` lines
130-137). -/
def format_working_hours (hours : ℚ) : String :=
  if hours ≤ 0 then "00:00"
  else
    pad2 (Int.floor hours).toNat ++ ":" ++
      pad2 (Int.floor ((hours - (Int.floor hours : ℚ)) * 60)).toNat

/-- Model of `detect_shift` (`clean_daily_inout30.py` lines 140-181):
returns the default `"G"` when the punch-in is missing; classifies the
punch-in hour into the A/G/B/C windows; outside all windows picks, in the
order A, G, B, C, the first code of minimal distance where the distances
are `|hour-6|`, `|hour-9|`, `|hour-14|` and, for C,
`|hour-22|` when `hour > 12` else `|hour+24-22|`. -/
def detect_shift (in_time out_time : Option ℤ) : String :=
  match in_time with
  | none => "G"
  | some t =>
      if 5 ≤ hourOf t ∧ hourOf t ≤ 7 then "A"
      else if 8 ≤ hourOf t ∧ hourOf t ≤ 10 then "G"
      else if 13 ≤ hourOf t ∧ hourOf t ≤ 15 then "B"
      else if 21 ≤ hourOf t ∧ hourOf t ≤ 23 then "C"
      else
        if |hourOf t - 6| ≤ |hourOf t - 9| ∧ |hourOf t - 6| ≤ |hourOf t - 14| ∧
            |hourOf t - 6| ≤ (if 12 < hourOf t then |hourOf t - 22| else |hourOf t + 24 - 22|)
        then "A"
        else if |hourOf t - 9| ≤ |hourOf t - 14| ∧
            |hourOf t - 9| ≤ (if 12 < hourOf t then |hourOf t - 22| else |hourOf t + 24 - 22|)
        then "G"
        else if |hourOf t - 14| ≤ (if 12 < hourOf t then |hourOf t - 22| else |hourOf t + 24 - 22|)
        then "B"
        else "C"

/-- Model of `calculate_overtime` (`clean_daily_inout30.py` lines 184-210):
blank when `work_hours` falsy or `≤ 0`; `round(work_hours - 9, 2)`,
blanked when that is `< 1`. -/
def calculate_overtime (work_hours : ℚ) : Option ℚ :=
  if work_hours ≤ 0 then none
  else
    if pyRound2 (work_hours - 9) < 1 then none else some (pyRound2 (work_hours - 9))

/-- Model of `determine_status` (`clean_daily_inout30.py` lines 213-232). -/
def determine_status (working_hours : ℚ) : String :=
  if 7 ≤ working_hours then "Present"
  else if 9/2 ≤ working_hours then "Half Day"
  else "Absent"

/-- One output row of `clean_daily_inout30` (the fields a claim is about). -/
structure Record30 where
  status : String
  workingHours : String
  overtime : Option ℚ
  shift : String
  deriving DecidableEq, Repr

/-- Model of the per-(employee, date) record assembly of
`clean_daily_inout30` (lines 336-362): working hours from first IN to
last OUT, status, shift and overtime all derived from them. -/
def build_record (first_in last_out : Option ℤ) : Record30 :=
  { status := determine_status (calculate_working_hours first_in last_out),
    workingHours := format_working_hours (calculate_working_hours first_in last_out),
    overtime := calculate_overtime (calculate_working_hours first_in last_out),
    shift := detect_shift first_in last_out }

end DailyInout30

/-!
## Model of `clean_daily_inout13.py`
-/

namespace DailyInout13

/-- Model of `detect_shift` (`clean_daily_inout13.py` lines 359-390):
takes the punch-in hour, falling back to the punch-out hour when the
punch-in is missing; blank when both are missing; classifies into the
A/G/B/C windows with blank for any hour outside them. -/
def detect_shift (in_time out_time : Option ℤ) : String :=
  match (match in_time.map hourOf with
         | some h => some h
         | none => out_time.map hourOf) with
  | none => ""
  | some hour =>
      if 5 ≤ hour ∧ hour ≤ 7 then "A"
      else if 8 ≤ hour ∧ hour ≤ 10 then "G"
      else if 13 ≤ hour ∧ hour ≤ 15 then "B"
      else if 21 ≤ hour ∧ hour ≤ 23 then "C"
      else ""

/-- Model of the overnight adjustment in `merge_first_in_last_out`
(`clean_daily_inout13.py` lines 271-273): when both punches exist and
`last_out <= first_in`, one day is added to `last_out`, once. -/
def adjusted_last_out (first_in last_out : Option ℤ) : Option ℤ :=
  match first_in, last_out with
  | some i, some o => some (if o ≤ i then o + 86400 else o)
  | _, o => o

/-- Model of the `total_seconds` computation in `merge_first_in_last_out`
(`clean_daily_inout13.py` lines 277-279): the adjusted duration when both
punches exist, `0` otherwise. -/
def working_seconds (first_in last_out : Option ℤ) : ℤ :=
  match first_in, adjusted_last_out first_in last_out with
  | some i, some o => o - i
  | _, _ => 0

end DailyInout13

/-!
## Model of `clean_daily_inout14.py`
-/

namespace DailyInout14

/-- A calendar date as `datetime.date` compares and prints: year, month,
day. -/
structure PyDate where
  year : ℕ
  month : ℕ
  day : ℕ
  deriving DecidableEq, Repr

/-- Comparison key of a date: `datetime` comparison is lexicographic on
(year, month, day). -/
def PyDate.key (d : PyDate) : ℕ := d.year * 10000 + d.month * 100 + d.day

/-- The `%Y-%m-%d` rendering of a date. -/
def fmtDate (d : PyDate) : String :=
  toString d.year ++ "-" ++ pad2 d.month ++ "-" ++ pad2 d.day

/-- The `From Date (...) cannot be after To Date (...)` message of
`validate_date_range` (`clean_daily_inout14.py` line 73). -/
def msg_from_after_to (uf ut : PyDate) : String :=
  ("From Date (" ++ fmtDate uf ++ ") cannot be after To Date (") ++
    fmtDate ut ++ ")"

/-- The `From Date (...) is before the file's start date (...)` message of
`validate_date_range` (`clean_daily_inout14.py` lines 77-80). -/
def msg_from_before_file (uf ff ft : PyDate) : String :=
  ("From Date (" ++ fmtDate uf ++ ") is before the file's start date (") ++
    fmtDate ff ++
    ("). File contains data from " ++ fmtDate ff ++ " to ") ++ fmtDate ft

/-- The `To Date (...) is after the file's end date (...)` message of
`validate_date_range` (`clean_daily_inout14.py` lines 83-86). -/
def msg_to_after_file (ut ff ft : PyDate) : String :=
  ("To Date (" ++ fmtDate ut ++ ") is after the file's end date (") ++
    fmtDate ft ++
    ("). File contains data from ") ++ fmtDate ff ++ (" to " ++ fmtDate ft)

/-- Model of `validate_date_range` (`clean_daily_inout14.py` lines 41-91):
when either custom date is missing, the file's own span is returned; a
custom range is rejected when `from > to` or when it is not contained in
the file span, otherwise returned unchanged. `Except.error` models the
raised `ValueError` with its message. -/
def validate_date_range (file_from_date file_to_date : PyDate)
    (custom_from_date custom_to_date : Option PyDate) :
    Except String (PyDate × PyDate) :=
  match custom_from_date, custom_to_date with
  | some uf, some ut =>
      if ut.key < uf.key then .error (msg_from_after_to uf ut)
      else if uf.key < file_from_date.key then
        .error (msg_from_before_file uf file_from_date file_to_date)
      else if file_to_date.key < ut.key then
        .error (msg_to_after_file ut file_from_date file_to_date)
      else .ok (uf, ut)
  | _, _ => .ok (file_from_date, file_to_date)

/-- Model of `_seconds_to_decimal_hours` (`clean_daily_inout14.py` lines
185-190): `0.0` for non-positive seconds, else `round(s / 3600, 2)`. -/
def seconds_to_decimal_hours (total_seconds : ℚ) : ℚ :=
  if total_seconds ≤ 0 then 0 else pyRound2 (total_seconds / 3600)

/-- Model of `_calculate_overtime_from_seconds` (`clean_daily_inout14.py`
lines 193-201) at the default 9 standard hours. -/
def calculate_overtime_from_seconds (total_seconds : ℚ) : Option ℚ :=
  if total_seconds ≤ 0 then none
  else
    if pyRound2 (pyRound2 (total_seconds / 3600) - 9) < 1 then none
    else some (pyRound2 (pyRound2 (total_seconds / 3600) - 9))

/-- One merged output row of `clean_daily_inout14` (the fields a claim is
about; `workingHours = none` models the blank cell). -/
structure MergedRow where
  status : String
  workingHours : Option ℚ
  overtime : Option ℚ
  deriving DecidableEq, Repr

/-- Model of the row assembly in `merge_overlapping_attendances`
(`clean_daily_inout14.py` lines 354-394): when either merged punch is
missing the working hours and overtime are blank and the status is
`Absent`; otherwise they are derived from the accumulated seconds. -/
def merge_row (earliest_in latest_out : Option ℤ) (total_seconds : ℚ) :
    MergedRow :=
  if earliest_in = none ∨ latest_out = none then
    { status := "Absent", workingHours := none, overtime := none }
  else
    { status :=
        if 7 ≤ seconds_to_decimal_hours total_seconds then "Present"
        else if 9/2 ≤ seconds_to_decimal_hours total_seconds then "Half Day"
        else "Absent",
      workingHours := some (seconds_to_decimal_hours total_seconds),
      overtime := calculate_overtime_from_seconds total_seconds }

end DailyInout14

/-!
## Helper lemmas
-/

theorem rne_intCast (n : ℤ) : rne (n : ℚ) = n := by
  unfold rne
  simp [Int.floor_intCast]

theorem rne_cases (q : ℚ) : rne q = Int.floor q ∨ rne q = Int.floor q + 1 := by
  unfold rne
  split_ifs <;> simp

theorem rne_nonneg {q : ℚ} (h : 0 ≤ q) : 0 ≤ rne q := by
  rcases rne_cases q with h' | h' <;> rw [h'] <;>
    have := Int.floor_nonneg.mpr h <;> omega

theorem pyRound2_nonneg {q : ℚ} (h : 0 ≤ q) : 0 ≤ pyRound2 q := by
  unfold pyRound2
  have : (0 : ℤ) ≤ rne (q * 100) := rne_nonneg (by positivity)
  positivity

theorem pyRound2_intCast (n : ℤ) : pyRound2 (n : ℚ) = n := by
  unfold pyRound2
  have : ((n : ℚ) * 100) = ((n * 100 : ℤ) : ℚ) := by push_cast; ring
  rw [this, rne_intCast]
  push_cast
  ring

theorem leadMatch_self_append (l r : List Char) : leadMatch l (l ++ r) = true := by
  induction l with
  | nil => rfl
  | cons a as ih => simp [leadMatch, ih]

theorem subSearch_of_leadMatch {sub s : List Char} (h : leadMatch sub s = true) :
    subSearch sub s = true := by
  cases s <;> simp [subSearch, h]

theorem subSearch_cons {sub t : List Char} (c : Char)
    (h : subSearch sub t = true) : subSearch sub (c :: t) = true := by
  simp [subSearch, h]

theorem subSearch_split (l q : List Char) :
    ∀ p : List Char, subSearch l (p ++ (l ++ q)) = true := by
  intro p
  induction p with
  | nil => exact subSearch_of_leadMatch (leadMatch_self_append l q)
  | cons c t ih => exact subSearch_cons c ih

theorem strContains_of_data_split (msg sub : String) {p q : List Char}
    (h : msg.data = p ++ (sub.data ++ q)) : strContains msg sub = true := by
  unfold strContains
  rw [h]
  exact subSearch_split sub.data q p

/-!
## Claim C1 — overtime blanking threshold
-/

/-- C1 (counterexample): the claim says overtime is blank whenever
`round(h - 9, 2) < 1.0`, and in particular `h = 9.5` gives blank; but
`clean_crystal_excel.calculate_overtime 9.5` returns `0.5`, not blank,
even though `round(9.5 - 9, 2) = 0.5 < 1`. -/
theorem C1_counterexample :
    pyRound2 ((19 : ℚ)/2 - 9) < 1 ∧
      CrystalExcel.calculate_overtime ((19 : ℚ)/2) = some (1/2) := by
  constructor
  · norm_num [pyRound2, rne]
  · norm_num [CrystalExcel.calculate_overtime, pyRound2, rne]

/-- C1 (amended): `clean_daily_inout30.calculate_overtime` is blank exactly
when `h ≤ 0` or `round(h - 9, 2) < 1` (so for all negative results), and
otherwise returns the value `round(h - 9, 2) ≥ 1`; but
`clean_crystal_excel.calculate_overtime` blanks only when `h ≤ 0` or
`round(h - 9, 2) ≤ 0`, so a sub-one-hour overtime such as `h = 9.5` is
emitted as `0.5` there. In particular `h = 12.5` gives `3.5` in both and
`h = 9.5` is blank only in the inout30 variant. -/
theorem C1_overtime_blanking (h : ℚ) :
    (DailyInout30.calculate_overtime h = none ↔ h ≤ 0 ∨ pyRound2 (h - 9) < 1) ∧
    (∀ v, DailyInout30.calculate_overtime h = some v →
      v = pyRound2 (h - 9) ∧ 1 ≤ v) ∧
    (CrystalExcel.calculate_overtime h = none ↔ h ≤ 0 ∨ pyRound2 (h - 9) ≤ 0) ∧
    (∀ v, CrystalExcel.calculate_overtime h = some v →
      v = pyRound2 (h - 9) ∧ 0 < v) ∧
    DailyInout30.calculate_overtime (25/2) = some (7/2) ∧
    CrystalExcel.calculate_overtime (25/2) = some (7/2) ∧
    DailyInout30.calculate_overtime (19/2) = none := by
  refine ⟨?_, ?_, ?_, ?_, ?_, ?_, ?_⟩
  · unfold DailyInout30.calculate_overtime
    split_ifs <;> simp_all
  · intro v
    unfold DailyInout30.calculate_overtime
    split_ifs with h1 h2
    · simp
    · simp
    · simp only [Option.some.injEq]
      rintro rfl
      exact ⟨rfl, not_lt.mp h2⟩
  · unfold CrystalExcel.calculate_overtime
    split_ifs <;> simp_all
  · intro v
    unfold CrystalExcel.calculate_overtime
    split_ifs with h1 h2
    · simp
    · simp
    · simp only [Option.some.injEq]
      rintro rfl
      exact ⟨rfl, not_le.mp h2⟩
  · norm_num [DailyInout30.calculate_overtime, pyRound2, rne]
  · norm_num [CrystalExcel.calculate_overtime, pyRound2, rne]
  · norm_num [DailyInout30.calculate_overtime, pyRound2, rne]

/-!
## Claim C2 — shift when no punch-in exists
-/

/-- C2 (counterexample): the claim says the shift classifier returns blank
whenever no punch-in exists; but `clean_daily_inout30.detect_shift` returns
the default `"G"` for a missing punch-in, and
`clean_daily_inout13.detect_shift` guesses from the punch-out hour
(here 09:00, giving `"G"`). -/
theorem C2_counterexample :
    DailyInout30.detect_shift none none = "G" ∧
    DailyInout13.detect_shift none (some 32400) = "G" ∧
    ("G" : String) ≠ "" := by decide

/-- C2 (amended): when no punch-in exists,
`clean_daily_inout30.detect_shift` returns the default code `"G"` (never
blank), while `clean_daily_inout13.detect_shift` falls back to the
punch-out hour and returns blank only when both punches are missing or the
fallback hour lies in no window. -/
theorem C2_shift_no_punch_in (out_time : Option ℤ) :
    DailyInout30.detect_shift none out_time = "G" ∧
    DailyInout13.detect_shift none none = "" ∧
    DailyInout13.detect_shift none out_time =
      (match out_time with
       | none => ""
       | some t => window_code (hourOf t)) := by
  refine ⟨rfl, rfl, ?_⟩
  cases out_time <;> rfl

/-!
## Claim C3 — overnight adjustment
-/

/-- C3 (counterexample): the claim says that whenever
`last_out <= first_in`, including exact equality, 24 hours are added
before computing working hours; but `clean_crystal_excel.
calculate_working_hours` adjusts only on strict `out < in`, so at
equality (here 10:00 = 10:00) it computes 0 hours, not 24. -/
theorem C3_counterexample :
    CrystalExcel.calculate_working_hours (some 36000) (some 36000) = 0 ∧
    (0 : ℚ) ≠ 24 := by
  constructor
  · show pyRound2 ((((if (36000:ℤ) < 36000 then 36000 + 86400 else 36000) - 36000 : ℤ) : ℚ) / 3600) = 0
    norm_num [pyRound2, rne]
  · norm_num

/-- C3 (amended): for same-day punches,
`clean_daily_inout13.merge_first_in_last_out` adds exactly 24 hours once
whenever `last_out <= first_in` (including equality) and the resulting
duration is then strictly positive; `clean_crystal_excel.
calculate_working_hours` adds the 24 hours only on strict
`last_out < first_in` and yields 0 at exact equality; in both variants the
resulting duration is non-negative. -/
theorem C3_overnight_adjustment (i o : ℤ) (hi0 : 0 ≤ i) (hi : i < 86400)
    (ho0 : 0 ≤ o) (ho : o < 86400) :
    (o ≤ i → DailyInout13.adjusted_last_out (some i) (some o) = some (o + 86400) ∧
      0 < DailyInout13.working_seconds (some i) (some o)) ∧
    (i < o → DailyInout13.adjusted_last_out (some i) (some o) = some o) ∧
    (o < i → CrystalExcel.calculate_working_hours (some i) (some o) =
        pyRound2 (((o + 86400 - i : ℤ) : ℚ) / 3600)) ∧
    CrystalExcel.calculate_working_hours (some i) (some i) = 0 ∧
    0 ≤ CrystalExcel.calculate_working_hours (some i) (some o) := by
  refine ⟨?_, ?_, ?_, ?_, ?_⟩
  · intro hle
    refine ⟨by simp [DailyInout13.adjusted_last_out, if_pos hle], ?_⟩
    simp only [DailyInout13.working_seconds, DailyInout13.adjusted_last_out,
      if_pos hle]
    omega
  · intro hlt
    simp only [DailyInout13.adjusted_last_out]
    rw [if_neg (by omega)]
  · intro hlt
    simp only [CrystalExcel.calculate_working_hours]
    rw [if_pos hlt]
  · simp only [CrystalExcel.calculate_working_hours]
    rw [if_neg (lt_irrefl i)]
    have h0 : (((i - i : ℤ) : ℚ) / 3600) = ((0 : ℤ) : ℚ) := by push_cast; ring
    rw [h0, pyRound2_intCast]
    norm_num
  · simp only [CrystalExcel.calculate_working_hours]
    split_ifs with hlt
    · apply pyRound2_nonneg
      have hpos : (0:ℤ) ≤ o + 86400 - i := by omega
      apply div_nonneg _ (by norm_num)
      exact_mod_cast hpos
    · apply pyRound2_nonneg
      have hpos : (0:ℤ) ≤ o - i := by omega
      apply div_nonneg _ (by norm_num)
      exact_mod_cast hpos

/-- C3 (witness): instantiation at first_in 10:00 and last_out 02:00. -/
theorem C3_overnight_adjustment_witness :
    ((0:ℤ) ≤ 36000 ∧ (36000:ℤ) < 86400 ∧ (0:ℤ) ≤ 7200 ∧ (7200:ℤ) < 86400 ∧
      (7200:ℤ) ≤ 36000) ∧
    DailyInout13.adjusted_last_out (some 36000) (some 7200) = some (7200 + 86400) ∧
    0 < DailyInout13.working_seconds (some 36000) (some 7200) :=
  ⟨by norm_num,
    (C3_overnight_adjustment 36000 7200 (by norm_num) (by norm_num)
      (by norm_num) (by norm_num)).1 (by norm_num)⟩

/-!
## Claim C4 — working hours blank on missing punch
-/

/-- C4 (counterexample): the claim says the Working Hours field is blank
(not `"00:00"`) for a record with a missing punch; but
`clean_daily_inout30` builds the record with
`format_working_hours(calculate_working_hours(...)) = "00:00"` when the
punch-in is missing (punch-out 17:00 here). -/
theorem C4_counterexample :
    (DailyInout30.build_record none (some 61200)).workingHours = "00:00" ∧
    ("00:00" : String) ≠ "" ∧
    (DailyInout30.build_record none (some 61200)).status = "Absent" := by
  have hwh : DailyInout30.calculate_working_hours none (some 61200) = 0 := rfl
  refine ⟨?_, by decide, ?_⟩
  · simp only [DailyInout30.build_record, hwh]
    norm_num [DailyInout30.format_working_hours]
  · simp only [DailyInout30.build_record, hwh]
    norm_num [DailyInout30.determine_status]

/-- C4 (amended): when either merged punch is missing,
`clean_daily_inout14.merge_overlapping_attendances` emits a blank
Working Hours cell, blank overtime and status `Absent`; but
`clean_daily_inout30` emits the string `"00:00"` in the Working Hours
field (with status `Absent`) rather than a blank. -/
theorem C4_missing_punch (ein lout : Option ℤ) (ts : ℚ)
    (h : ein = none ∨ lout = none) :
    (DailyInout14.merge_row ein lout ts).workingHours = none ∧
    (DailyInout14.merge_row ein lout ts).status = "Absent" ∧
    (DailyInout14.merge_row ein lout ts).overtime = none ∧
    (DailyInout30.build_record ein lout).workingHours = "00:00" ∧
    (DailyInout30.build_record ein lout).status = "Absent" := by
  have hwh : DailyInout30.calculate_working_hours ein lout = 0 := by
    rcases h with h | h <;> subst h
    · rfl
    · cases ein <;> rfl
  refine ⟨?_, ?_, ?_, ?_, ?_⟩
  · simp [DailyInout14.merge_row, if_pos h]
  · simp [DailyInout14.merge_row, if_pos h]
  · simp [DailyInout14.merge_row, if_pos h]
  · simp only [DailyInout30.build_record, hwh]
    norm_num [DailyInout30.format_working_hours]
  · simp only [DailyInout30.build_record, hwh]
    norm_num [DailyInout30.determine_status]

/-- C4 (witness): instantiation with a missing punch-in and punch-out
17:00. -/
theorem C4_missing_punch_witness :
    ((none : Option ℤ) = none ∨ (some (61200:ℤ) : Option ℤ) = none) ∧
    ((DailyInout14.merge_row none (some 61200) 0).workingHours = none ∧
      (DailyInout14.merge_row none (some 61200) 0).status = "Absent" ∧
      (DailyInout14.merge_row none (some 61200) 0).overtime = none ∧
      (DailyInout30.build_record none (some 61200)).workingHours = "00:00" ∧
      (DailyInout30.build_record none (some 61200)).status = "Absent") :=
  ⟨Or.inl rfl, C4_missing_punch none (some 61200) 0 (Or.inl rfl)⟩

/-!
## Claim C5 — shift windows and nearest-window fallback
-/

/-- C5 (counterexample): the claim says both shift classifiers map any
out-of-window hour to the single circularly-closest window; but
`clean_daily_inout13.detect_shift` returns blank for hour 12 (not the
closest window `"B"`), and at hour 2 there is no single closest window at
all: A (centre 6) and C (centre 22) are both at circular distance 4
(`clean_daily_inout30.detect_shift` deterministically picks `"A"`). -/
theorem C5_counterexample :
    DailyInout13.detect_shift (some (3600 * 12)) none = "" ∧
    ("" : String) ≠ "B" ∧
    DailyInout30.detect_shift (some (3600 * 2)) none = "A" ∧
    circDist 2 6 = 4 ∧ circDist 2 22 = 4 ∧
    ¬ ∃ c ∈ shiftCenters, ∀ c' ∈ shiftCenters, c'.1 ≠ c.1 →
        circDist 2 c.2 < circDist 2 c'.2 := by decide

/-- C5 (amended): `clean_daily_inout30.detect_shift` maps hours 5-7 to A,
8-10 to G, 13-15 to B, 21-23 to C, and maps every out-of-window hour,
deterministically, to a window whose centre is at minimal circular
24-hour distance (at the tied hours it picks the first of A, G, B, C:
hour 2 gives A, hour 18 gives B; hour 12 gives B);
`clean_daily_inout13.detect_shift` has no fallback and returns blank for
every out-of-window hour. -/
theorem C5_shift_windows_and_fallback :
    ∀ h : ℕ, h < 24 →
      ((5 ≤ h ∧ h ≤ 7) → DailyInout30.detect_shift (some (3600 * (h:ℤ))) none = "A") ∧
      ((8 ≤ h ∧ h ≤ 10) → DailyInout30.detect_shift (some (3600 * (h:ℤ))) none = "G") ∧
      ((13 ≤ h ∧ h ≤ 15) → DailyInout30.detect_shift (some (3600 * (h:ℤ))) none = "B") ∧
      ((21 ≤ h ∧ h ≤ 23) → DailyInout30.detect_shift (some (3600 * (h:ℤ))) none = "C") ∧
      (window_code (h:ℤ) = "" →
        (∃ c ∈ shiftCenters,
          c.1 = DailyInout30.detect_shift (some (3600 * (h:ℤ))) none ∧
          ∀ c' ∈ shiftCenters, circDist (h:ℤ) c.2 ≤ circDist (h:ℤ) c'.2) ∧
        DailyInout13.detect_shift (some (3600 * (h:ℤ))) none = "") ∧
      (h = 2 → DailyInout30.detect_shift (some (3600 * (h:ℤ))) none = "A") ∧
      (h = 18 → DailyInout30.detect_shift (some (3600 * (h:ℤ))) none = "B") ∧
      (h = 12 → DailyInout30.detect_shift (some (3600 * (h:ℤ))) none = "B") := by
  decide

/-- C5 (witness): instantiation at the claim's example hour 12, whose
nearest window is B. -/
theorem C5_shift_windows_witness :
    (12 : ℕ) < 24 ∧
    ((12:ℕ) = 12 → DailyInout30.detect_shift (some (3600 * ((12:ℕ):ℤ))) none = "B") :=
  ⟨by norm_num, (C5_shift_windows_and_fallback 12 (by norm_num)).2.2.2.2.2.2.2⟩

/-!
## Claim C8 — Holiday/Terminated days are skipped
-/

/-- C8 (confirmed): in `clean_crystal_excel`, a day whose raw status token
maps (through `status_map`, with the token itself as fallback) to
`Holiday` or `Terminated` produces no record at all. -/
theorem C8_excluded_statuses_skipped (date_str raw : String)
    (cin cout : Option ℤ)
    (h : ((CrystalExcel.status_map.lookup raw).getD raw) ∈
      CrystalExcel.excluded_statuses) :
    CrystalExcel.process_day date_str (some raw) cin cout = none := by
  simp only [CrystalExcel.process_day]
  rw [if_pos h]

/-- C8 (witness): the weekly-off token `"WO"` maps to `Holiday` and its
day is skipped. -/
theorem C8_excluded_statuses_witness :
    ((CrystalExcel.status_map.lookup "WO").getD "WO") ∈
      CrystalExcel.excluded_statuses ∧
    CrystalExcel.process_day "2025-07-01" (some "WO") none none = none :=
  ⟨by decide, C8_excluded_statuses_skipped "2025-07-01" "WO" none none (by decide)⟩

/-!
## Claim C9 — one-sided custom date is silently ignored
-/

/-- C9 (confirmed): when either custom date is missing,
`clean_daily_inout14.validate_date_range` neither fails nor uses the
provided bound: it returns the file's own span. -/
theorem C9_one_sided_custom_ignored (ff ft : DailyInout14.PyDate)
    (cf ct : Option DailyInout14.PyDate) (h : cf = none ∨ ct = none) :
    DailyInout14.validate_date_range ff ft cf ct = .ok (ff, ft) := by
  unfold DailyInout14.validate_date_range
  rcases h with h | h <;> subst h
  · rfl
  · cases cf <;> rfl

/-- C9 (witness): only a from-date is supplied (and even lies outside the
file span); the full file span is returned and the supplied date ignored. -/
theorem C9_one_sided_custom_witness :
    ((some (⟨2025, 6, 1⟩ : DailyInout14.PyDate)) = none ∨
      (none : Option DailyInout14.PyDate) = none) ∧
    DailyInout14.validate_date_range ⟨2025, 7, 1⟩ ⟨2025, 7, 31⟩
      (some ⟨2025, 6, 1⟩) none = .ok (⟨2025, 7, 1⟩, ⟨2025, 7, 31⟩) :=
  ⟨Or.inr rfl,
    C9_one_sided_custom_ignored ⟨2025, 7, 1⟩ ⟨2025, 7, 31⟩
      (some ⟨2025, 6, 1⟩) none (Or.inr rfl)⟩

/-!
## Claim C7 — fractional-day serial normalization
-/

/-- C7 (confirmed): `clean_crystal_excel.format_timestamp` converts a
fractional-day serial to `total_seconds = int(serial * 24 * 3600)` and
extracts hour and minute by integer division and modulo on total seconds,
so the serial of any valid `HH:MM` time, in particular 09:30
(`0.39583...`), round-trips exactly with no one-minute drift. -/
theorem C7_serial_roundtrip (h m : ℕ) (hh : h < 24) (hm : m < 60) :
    CrystalExcel.format_timestamp_serial ((3600 * (h:ℚ) + 60 * (m:ℚ)) / 86400) =
      ((h : ℤ), (m : ℤ)) := by
  have key : ((3600 * (h:ℚ) + 60 * (m:ℚ)) / 86400) * 24 * 3600 =
      (((3600 * h + 60 * m : ℕ) : ℤ) : ℚ) := by
    push_cast
    ring
  unfold CrystalExcel.format_timestamp_serial
  rw [key, Int.floor_intCast, Prod.mk.injEq]
  constructor
  · omega
  · omega

/-- C7 (witness): the serial of 09:30 is `19/48 = 0.39583...` and it
normalizes to hour 9, minute 30 exactly. -/
theorem C7_serial_roundtrip_witness :
    ((9:ℕ) < 24 ∧ (30:ℕ) < 60) ∧
    (3600 * ((9:ℕ):ℚ) + 60 * ((30:ℕ):ℚ)) / 86400 = 19/48 ∧
    CrystalExcel.format_timestamp_serial ((3600 * ((9:ℕ):ℚ) + 60 * ((30:ℕ):ℚ)) / 86400) =
      (((9:ℕ) : ℤ), ((30:ℕ) : ℤ)) :=
  ⟨⟨by norm_num, by norm_num⟩, by norm_num,
    C7_serial_roundtrip 9 30 (by norm_num) (by norm_num)⟩

/-!
## Claim C10 — HH.MM minute extraction
-/

/-- C10 (counterexample): the claim says the minute field is always below
60 for numeric inputs above 1; but the formatter accepts `v = 7.99` and
produces minutes `round(0.99 * 100) = 99`. -/
theorem C10_counterexample :
    CrystalExcel.format_timestamp_hhmm ((799:ℚ)/100) = (7, 99) ∧
    ¬ ((99:ℤ) < 60) := by
  constructor
  · unfold CrystalExcel.format_timestamp_hhmm
    have hf : Int.floor ((799:ℚ)/100) = 7 := by
      rw [Int.floor_eq_iff] <;> norm_num
    rw [hf]
    have h99 : ((799:ℚ)/100 - ((7:ℤ):ℚ)) * 100 = ((99:ℤ):ℚ) := by
      push_cast
      norm_num
    rw [h99, rne_intCast]
  · norm_num

/-- C10 (amended): for a numeric cell `v > 1` the formatter computes
`minutes = round((v - int(v)) * 100)`; this stays below 60 for genuine
`HH.MM` clock values (fractional part `m/100` with `m ≤ 59`), which
round-trip exactly, but inputs with a larger fractional part (such as
7.99) yield minute fields of 60 and above. -/
theorem C10_hhmm_minutes (h m : ℕ) (h1 : 1 ≤ h) (hm : m ≤ 59) :
    CrystalExcel.format_timestamp_hhmm ((h : ℚ) + (m : ℚ) / 100) =
      ((h : ℤ), (m : ℤ)) ∧ ((m:ℤ) < 60) := by
  have hf : Int.floor ((h : ℚ) + (m : ℚ) / 100) = (h : ℤ) := by
    rw [Int.floor_eq_iff]
    constructor
    · have : (0:ℚ) ≤ (m:ℚ)/100 := by positivity
      push_cast
      linarith
    · have hm' : (m:ℚ) ≤ 59 := by exact_mod_cast hm
      push_cast
      linarith
  refine ⟨?_, by omega⟩
  unfold CrystalExcel.format_timestamp_hhmm
  rw [hf]
  have hmm : (((h:ℚ) + (m:ℚ)/100) - ((h:ℤ):ℚ)) * 100 = (((m:ℕ):ℤ) : ℚ) := by
    push_cast
    ring
  rw [hmm, rne_intCast]

/-- C10 (witness): the `HH.MM` value 17.45 yields 17:45. -/
theorem C10_hhmm_minutes_witness :
    ((1:ℕ) ≤ 17 ∧ (45:ℕ) ≤ 59) ∧
    (CrystalExcel.format_timestamp_hhmm (((17:ℕ) : ℚ) + ((45:ℕ) : ℚ) / 100) =
      (((17:ℕ) : ℤ), ((45:ℕ) : ℤ)) ∧ (((45:ℕ):ℤ) < 60)) :=
  ⟨⟨by norm_num, by norm_num⟩, C10_hhmm_minutes 17 45 (by norm_num) (by norm_num)⟩

/-!
## Claim C6 — date-range validation contract
-/

/-- C6 (counterexample): the claim says every rejection names the file's
actual span; but when `requested_from > requested_to` the raised message
names only the two requested dates, not the file span 2025-07-01 to
2025-07-31. -/
theorem C6_counterexample :
    DailyInout14.validate_date_range ⟨2025, 7, 1⟩ ⟨2025, 7, 31⟩
        (some ⟨2025, 7, 10⟩) (some ⟨2025, 7, 5⟩) =
      .error (DailyInout14.msg_from_after_to ⟨2025, 7, 10⟩ ⟨2025, 7, 5⟩) ∧
    DailyInout14.msg_from_after_to ⟨2025, 7, 10⟩ ⟨2025, 7, 5⟩ =
      "From Date (2025-07-10) cannot be after To Date (2025-07-05)" ∧
    strContains "From Date (2025-07-10) cannot be after To Date (2025-07-05)"
      (DailyInout14.fmtDate ⟨2025, 7, 1⟩) = false ∧
    strContains "From Date (2025-07-10) cannot be after To Date (2025-07-05)"
      (DailyInout14.fmtDate ⟨2025, 7, 31⟩) = false := by
  exact ⟨rfl, rfl, by decide, by decide⟩

/-- C6 (amended): `clean_daily_inout14.validate_date_range` returns the
requested range unchanged when it is ordered and fully inside the file
span, returns the full file span when no range is requested, and rejects
`from > to` and uncontained ranges; the containment errors name the file's
actual span, while the `from > to` error names only the two requested
dates. -/
theorem C6_date_range_validation (ff ft uf ut : DailyInout14.PyDate) :
    DailyInout14.validate_date_range ff ft none none = .ok (ff, ft) ∧
    (uf.key ≤ ut.key → ff.key ≤ uf.key → ut.key ≤ ft.key →
      DailyInout14.validate_date_range ff ft (some uf) (some ut) = .ok (uf, ut)) ∧
    (ut.key < uf.key →
      DailyInout14.validate_date_range ff ft (some uf) (some ut) =
        .error (DailyInout14.msg_from_after_to uf ut) ∧
      strContains (DailyInout14.msg_from_after_to uf ut)
        (DailyInout14.fmtDate uf) = true ∧
      strContains (DailyInout14.msg_from_after_to uf ut)
        (DailyInout14.fmtDate ut) = true) ∧
    (uf.key ≤ ut.key → uf.key < ff.key →
      DailyInout14.validate_date_range ff ft (some uf) (some ut) =
        .error (DailyInout14.msg_from_before_file uf ff ft) ∧
      strContains (DailyInout14.msg_from_before_file uf ff ft)
        (DailyInout14.fmtDate ff) = true ∧
      strContains (DailyInout14.msg_from_before_file uf ff ft)
        (DailyInout14.fmtDate ft) = true) ∧
    (uf.key ≤ ut.key → ff.key ≤ uf.key → ft.key < ut.key →
      DailyInout14.validate_date_range ff ft (some uf) (some ut) =
        .error (DailyInout14.msg_to_after_file ut ff ft) ∧
      strContains (DailyInout14.msg_to_after_file ut ff ft)
        (DailyInout14.fmtDate ff) = true ∧
      strContains (DailyInout14.msg_to_after_file ut ff ft)
        (DailyInout14.fmtDate ft) = true) := by
  refine ⟨rfl, ?_, ?_, ?_, ?_⟩
  · intro h1 h2 h3
    simp only [DailyInout14.validate_date_range]
    rw [if_neg (by omega), if_neg (by omega), if_neg (by omega)]
  · intro h1
    refine ⟨?_, ?_, ?_⟩
    · simp only [DailyInout14.validate_date_range]
      rw [if_pos h1]
    · have hsplit : (DailyInout14.msg_from_after_to uf ut).data =
          ("From Date (").data ++ ((DailyInout14.fmtDate uf).data ++
            (((") cannot be after To Date (") ++ DailyInout14.fmtDate ut ++
              ")").data)) := by
        simp [DailyInout14.msg_from_after_to, String.data_append,
          List.append_assoc]
      exact strContains_of_data_split _ _ hsplit
    · have hsplit : (DailyInout14.msg_from_after_to uf ut).data =
          (("From Date (" ++ DailyInout14.fmtDate uf ++
            ") cannot be after To Date (")).data ++
            ((DailyInout14.fmtDate ut).data ++ (")").data) := by
        simp [DailyInout14.msg_from_after_to, String.data_append,
          List.append_assoc]
      exact strContains_of_data_split _ _ hsplit
  · intro h1 h2
    refine ⟨?_, ?_, ?_⟩
    · simp only [DailyInout14.validate_date_range]
      rw [if_neg (by omega), if_pos h2]
    · have hsplit : (DailyInout14.msg_from_before_file uf ff ft).data =
          (("From Date (" ++ DailyInout14.fmtDate uf ++
            ") is before the file's start date (")).data ++
            ((DailyInout14.fmtDate ff).data ++
              ((("). File contains data from " ++ DailyInout14.fmtDate ff ++
                " to ") ++ DailyInout14.fmtDate ft).data)) := by
        simp [DailyInout14.msg_from_before_file, String.data_append,
          List.append_assoc]
      exact strContains_of_data_split _ _ hsplit
    · have hsplit : (DailyInout14.msg_from_before_file uf ff ft).data =
          (("From Date (" ++ DailyInout14.fmtDate uf ++
            ") is before the file's start date (") ++ DailyInout14.fmtDate ff ++
            ("). File contains data from " ++ DailyInout14.fmtDate ff ++
              " to ")).data ++ ((DailyInout14.fmtDate ft).data ++ []) := by
        simp [DailyInout14.msg_from_before_file, String.data_append,
          List.append_assoc]
      exact strContains_of_data_split _ _ hsplit
  · intro h1 h2 h3
    refine ⟨?_, ?_, ?_⟩
    · simp only [DailyInout14.validate_date_range]
      rw [if_neg (by omega), if_neg (by omega), if_pos h3]
    · have hsplit : (DailyInout14.msg_to_after_file ut ff ft).data =
          (("To Date (" ++ DailyInout14.fmtDate ut ++
            ") is after the file's end date (") ++ DailyInout14.fmtDate ft ++
            ("). File contains data from ")).data ++
            ((DailyInout14.fmtDate ff).data ++
              ((" to " ++ DailyInout14.fmtDate ft).data)) := by
        simp [DailyInout14.msg_to_after_file, String.data_append,
          List.append_assoc]
      exact strContains_of_data_split _ _ hsplit
    · have hsplit : (DailyInout14.msg_to_after_file ut ff ft).data =
          (("To Date (" ++ DailyInout14.fmtDate ut ++
            ") is after the file's end date (")).data ++
            ((DailyInout14.fmtDate ft).data ++
              ((("). File contains data from ") ++ DailyInout14.fmtDate ff ++
                (" to " ++ DailyInout14.fmtDate ft)).data)) := by
        simp [DailyInout14.msg_to_after_file, String.data_append,
          List.append_assoc]
      exact strContains_of_data_split _ _ hsplit

/-- C6 (witness): file span 2025-07-01..2025-07-31 with request
2025-07-05..2025-07-10 returns the sub-range unchanged. -/
theorem C6_date_range_validation_witness :
    ((⟨2025, 7, 5⟩ : DailyInout14.PyDate).key ≤
        (⟨2025, 7, 10⟩ : DailyInout14.PyDate).key ∧
      (⟨2025, 7, 1⟩ : DailyInout14.PyDate).key ≤
        (⟨2025, 7, 5⟩ : DailyInout14.PyDate).key ∧
      (⟨2025, 7, 10⟩ : DailyInout14.PyDate).key ≤
        (⟨2025, 7, 31⟩ : DailyInout14.PyDate).key) ∧
    DailyInout14.validate_date_range ⟨2025, 7, 1⟩ ⟨2025, 7, 31⟩
      (some ⟨2025, 7, 5⟩) (some ⟨2025, 7, 10⟩) =
        .ok (⟨2025, 7, 5⟩, ⟨2025, 7, 10⟩) :=
  ⟨⟨by decide, by decide, by decide⟩,
    (C6_date_range_validation ⟨2025, 7, 1⟩ ⟨2025, 7, 31⟩ ⟨2025, 7, 5⟩
      ⟨2025, 7, 10⟩).2.1 (by decide) (by decide) (by decide)⟩

end VaamanAttendance
